import Mathlib

/-!
Verification of the GraphQL WebSocket client (`channels_graphql_ws/client.py`).

The client exchanges JSON messages over an abstract transport.  We embed the
client shallowly:

* A wire message is a record of three independently optional fields
  (`id`, `type`, `payload`); a `none` field models the key being absent
  from the JSON object (absence, not a null value).
* The transport's inbound side is a finite script `List TransportItem`;
  each item is either a delivered message or a transport-level timeout of
  the underlying `receive()` call.  An exhausted script also behaves as a
  transport timeout (nothing more will arrive within the transport's own
  deadline).
* Python exceptions become an explicit `Err` sum; every operation returns
  `Except Err _` together with the part of the inbound script it has not
  consumed.
* Wall-clock time (`time.monotonic`) is an oracle `elapsed : Nat → Int`
  giving the duration of each loop iteration of `wait_response` in exact
  clock ticks (monotonic clocks are integer tick counters underneath), and
  the loop carries explicit fuel because Python's `while timeout > 0` loop
  is not structurally terminating.
-/

/-- The value under the `payload` key when it is a JSON object.  The client
only ever inspects membership of the `errors` key (`"errors" in payload`) and
builds `start` payloads carrying `query` and `variables`, so those are the
fields we track; `errors = some l` models the key being present with
collection `l`, `errors = none` models the key being absent. -/
structure Payload where
  data : Option String := none
  errors : Option (List String) := none
  query : Option String := none
  vars : Option (List (String × String)) := none
  deriving DecidableEq, Repr

/-- A payload value: the client sends `connection_init` with the string
payload `""`, all other payloads it touches are objects. -/
inductive PVal where
  | str (s : String)
  | obj (p : Payload)
  deriving DecidableEq, Repr

/-- A wire message: a JSON object whose three fields are each independently
optional; `none` means the key is absent from the object. -/
structure Msg where
  id : Option String := none
  type : Option String := none
  payload : Option PVal := none
  deriving DecidableEq, Repr

/-- Python exceptions the client can raise or observe.
`protocolViolation` is the typed `ProtocolViolationError` kind named by the
specification's error taxonomy; the translated code never produces it (the
handshake check is a plain `assert`, i.e. `assertionError`). -/
inductive Err where
  | keyError (key : String)
  | assertionError (msg : String)
  | responseError (resp : Msg)
  | timeoutErr
  | protocolViolation (resp : Msg)
  deriving DecidableEq, Repr

/-- One scripted event on the transport's inbound side: a delivered message,
or the transport's own `receive()` raising `asyncio.TimeoutError`. -/
inductive TransportItem where
  | msg (m : Msg)
  | timeoutSig
  deriving DecidableEq, Repr

deriving instance DecidableEq for Except

/-- Models `transport.receive()`: yield the next scripted item.  An exhausted script
times out like an idle connection. -/
def transportReceive : List TransportItem → Except Err Msg × List TransportItem
  | [] => (.error .timeoutErr, [])
  | .msg m :: rest => (.ok m, rest)
  | .timeoutSig :: rest => (.error .timeoutErr, rest)

/-- Translates `GraphqlWsClient._is_keep_alive_response`:
`response.get("type") == "ka"`. -/
def is_keep_alive_response (response : Msg) : Bool :=
  decide (response.type = some "ka")

/-- Python's `"errors" in payload` for a payload value: key membership for an
object, substring test for a string. -/
def pvalHasErrorsKey : PVal → Bool
  | .obj p => p.errors.isSome
  | .str s => decide ("errors".toList <:+: s.toList)

/-- The condition `payload is not None and "errors" in payload` from
`GraphqlWsClient.receive`. -/
def hasErrorsKeyOpt : Option PVal → Bool
  | some v => pvalHasErrorsKey v
  | none => false

/-- The scanning loop of `GraphqlWsClient.receive` (client.py lines 132-137):
pull messages from the transport, drop keep-alives unconditionally, and

* with `wait_id = none` accept the first non-keep-alive message;
* with `wait_id = some w` accept the first non-keep-alive message whose
  `id` equals `w`, silently discarding any other id; a non-keep-alive
  message with no `id` key makes `response["id"]` raise `KeyError`.

Returns the accepted message (or the escaping exception) and the unread
remainder of the inbound script. -/
def receiveLoop (wait_id : Option String) :
    List TransportItem → Except Err Msg × List TransportItem
  | [] => (.error .timeoutErr, [])
  | .timeoutSig :: rest => (.error .timeoutErr, rest)
  | .msg m :: rest =>
    if is_keep_alive_response m then
      receiveLoop wait_id rest
    else
      match wait_id with
      | none => (.ok m, rest)
      | some w =>
        match m.id with
        | none => (.error (.keyError "id"), rest)
        | some i => if i = w then (.ok m, rest) else receiveLoop wait_id rest

/-- The `assert_type` check of `GraphqlWsClient.receive`: reading
`response["type"]` raises `KeyError` when the key is absent, and a mismatch
fails the `assert`. -/
def typeCheck (assert_type : Option String) (m : Msg) : Except Err Unit :=
  match assert_type with
  | none => .ok ()
  | some t =>
    match m.type with
    | none => .error (.keyError "type")
    | some ty => if ty = t then .ok () else .error (.assertionError "Type expected")

/-- The `assert_id` check of `GraphqlWsClient.receive`. -/
def idCheck (assert_id : Option String) (m : Msg) : Except Err Unit :=
  match assert_id with
  | none => .ok ()
  | some a =>
    match m.id with
    | none => .error (.keyError "id")
    | some i => if i = a then .ok () else .error (.assertionError "Response id != expected id!")

/-- Translates `GraphqlWsClient.receive` up to (and including) the payload error check:
scanning loop, `assert_type`, `assert_id`, then
`if payload is not None and "errors" in payload: raise GraphqlWsResponseError(response)`.
On success yields the accepted message. -/
def receiveMsg (wait_id assert_id assert_type : Option String)
    (s : List TransportItem) : Except Err Msg × List TransportItem :=
  match receiveLoop wait_id s with
  | (.error e, rest) => (.error e, rest)
  | (.ok m, rest) =>
    match typeCheck assert_type m with
    | .error e => (.error e, rest)
    | .ok () =>
      match idCheck assert_id m with
      | .error e => (.error e, rest)
      | .ok () =>
        if hasErrorsKeyOpt m.payload then (.error (.responseError m), rest)
        else (.ok m, rest)

/-- What `GraphqlWsClient.receive` returns: the payload field alone, or the
entire response when `raw_response` is set. -/
inductive RecvResult where
  | payload (p : Option PVal)
  | raw (m : Msg)
  deriving DecidableEq, Repr

/-- Translates `GraphqlWsClient.receive`: accept a message per `receiveMsg`, then return
either its `payload` field (`response.get("payload", None)`) or the whole
response, per the `raw_response` flag. -/
def receive (wait_id assert_id assert_type : Option String) (raw_response : Bool)
    (s : List TransportItem) : Except Err RecvResult × List TransportItem :=
  match receiveMsg wait_id assert_id assert_type s with
  | (.error e, rest) => (.error e, rest)
  | (.ok m, rest) =>
    if raw_response then (.ok (.raw m), rest) else (.ok (.payload m.payload), rest)

/-- Specializes `receive` to `self.receive(wait_id=…)` as the other client methods call it: default
`assert_id`/`assert_type`/`raw_response`, so the caller gets the payload. -/
def receivePayload (wait_id : Option String)
    (s : List TransportItem) : Except Err (Option PVal) × List TransportItem :=
  match receiveMsg wait_id none none s with
  | (.error e, rest) => (.error e, rest)
  | (.ok m, rest) => (.ok m.payload, rest)

/-- The three-valued `msg_id` argument of `GraphqlWsClient.send`: the `AUTO`
sentinel (the default), an explicit `None` (a legal value meaning "no id"),
or an explicit id string. -/
inductive IdArg where
  | auto
  | noId
  | given (s : String)
  deriving DecidableEq, Repr

/-- Translates `GraphqlWsClient.send`: resolve `AUTO` to a freshly generated identifier
(`uuid.uuid4().hex`, modelled by the external `fresh` token), then build the
message incrementally, inserting each of `id`, `type`, `payload` only when
its value is not `None`.  Returns the built message and the resolved
`msg_id` (which the method returns to its caller). -/
def send (fresh : String) (msg_id : IdArg) (msg_type : Option String)
    (payload : Option PVal) : Msg × Option String :=
  let resolved : Option String :=
    match msg_id with
    | .auto => some fresh
    | .noId => none
    | .given s => some s
  let m0 : Msg := {}
  let m1 := match resolved with
    | some i => { m0 with id := some i }
    | none => m0
  let m2 := match msg_type with
    | some t => { m1 with type := some t }
    | none => m1
  let m3 := match payload with
    | some p => { m2 with payload := some p }
    | none => m2
  (m3, resolved)

/-- The mutable state of a `GraphqlWsClient`: the `_is_connected` flag, the
unread part of the transport's inbound script, and the transcript of
messages handed to `transport.send` (outbound). -/
structure ClientState where
  connected : Bool := false
  stream : List TransportItem := []
  sent : List Msg := []
  deriving DecidableEq, Repr

/-- Runs `send` at the client level: build the message and hand it to the
transport (append to the outbound transcript). -/
def clientSend (fresh : String) (msg_id : IdArg) (msg_type : Option String)
    (payload : Option PVal) (st : ClientState) : Option String × ClientState :=
  let (m, resolved) := send fresh msg_id msg_type payload
  (resolved, { st with sent := st.sent ++ [m] })

/-- Python's `variables or {}` in `GraphqlWsClient.start`: a missing or
falsy (empty) dict of variables becomes the empty dict. -/
def varsOr (variablesArg : Option (List (String × String))) : List (String × String) :=
  match variablesArg with
  | none => []
  | some v => if v = [] then [] else v

/-- Translates `GraphqlWsClient.start`: `send` a `start` message with payload
`{query: dedent(query), variables: variables or {}}`; `dedent` is
`textwrap.dedent`, an external library function kept abstract.  Returns the
message identifier produced by `send`. -/
def start (fresh : String) (dedent : String → String) (query : String)
    (variablesArg : Option (List (String × String))) (st : ClientState) :
    Option String × ClientState :=
  clientSend fresh .auto (some "start")
    (some (.obj { query := some (dedent query), vars := some (varsOr variablesArg) })) st

/-- Translates `GraphqlWsClient.execute`: `start`, then `receive(wait_id=msg_id)` inside
`try`, with a second `receive(wait_id=msg_id)` in the `finally` block to
consume the terminating `complete` message.  Python `finally` semantics: the
cleanup receive always runs; if it raises, its exception replaces any pending
one; if it finishes normally, the pending exception (or the result) of the
`try` body is what the caller sees. -/
def execute (fresh : String) (dedent : String → String) (query : String)
    (variablesArg : Option (List (String × String))) (st : ClientState) :
    Except Err (Option PVal) × ClientState :=
  let (msg_id, st1) := start fresh dedent query variablesArg st
  let (r1, s1) := receivePayload msg_id st1.stream
  let (r2, s2) := receivePayload msg_id s1
  let res : Except Err (Option PVal) :=
    match r2 with
    | .error e2 => .error e2
    | .ok _ => r1
  (res, { st1 with stream := s2 })

/-- Translates `GraphqlWsClient.connect_and_init`: establish the transport connection,
then (unless `connect_only`) send `{type: "connection_init", payload: ""}`,
do one blocking `transport.receive()` and run
`assert resp["type"] == "connection_ack"`; a missing `type` key raises
`KeyError`, a non-ack type fails the `assert` (an `AssertionError`).  Only
after the assertion passes is `_is_connected` set. -/
def connect_and_init (connect_only : Bool) (st : ClientState) :
    Except Err Unit × ClientState :=
  if connect_only then (.ok (), { st with connected := true })
  else
    let initMsg : Msg := { type := some "connection_init", payload := some (.str "") }
    let st1 := { st with sent := st.sent ++ [initMsg] }
    match transportReceive st1.stream with
    | (.error e, rest) => (.error e, { st1 with stream := rest })
    | (.ok resp, rest) =>
      let st2 := { st1 with stream := rest }
      match resp.type with
      | none => (.error (.keyError "type"), st2)
      | some t =>
        if t = "connection_ack" then (.ok (), { st2 with connected := true })
        else (.error (.assertionError "Unexpected response"), st2)

/-- Translates `GraphqlWsClient.wait_response` with the `timeout` argument already
resolved (Python substitutes `transport.TIMEOUT` for `None` before the loop).
The loop `while timeout > 0` runs `self.receive()` (no correlation), returns
the response when `response_checker` accepts it, swallows a transport-level
`asyncio.TimeoutError` (`Err.timeoutErr`), lets every other exception escape,
and subtracts the iteration's elapsed wall-clock time from the budget; when
the guard fails it raises `asyncio.TimeoutError`.  `elapsed idx` is the
wall-clock oracle (`time.monotonic` differences) for iteration `idx`; `fuel`
bounds the number of iterations the model unrolls (`none` = fuel exhausted,
a model artifact, not a behavior of the code). -/
def wait_response (response_checker : Option PVal → Bool) (elapsed : Nat → Int) :
    Nat → Int → Nat → List TransportItem →
    Option (Except Err (Option PVal) × List TransportItem)
  | 0, _, _, _ => none
  | fuel + 1, timeout, idx, s =>
    if timeout ≤ 0 then some (.error Err.timeoutErr, s)
    else
      match receivePayload none s with
      | (.ok p, rest) =>
        if response_checker p then some (.ok p, rest)
        else wait_response response_checker elapsed fuel (timeout - elapsed idx) (idx + 1) rest
      | (.error e, rest) =>
        if e = Err.timeoutErr then
          wait_response response_checker elapsed fuel (timeout - elapsed idx) (idx + 1) rest
        else some (.error e, rest)

/-- Runs `wait_response` at the client level: the method body only reads from the
transport (through `self.receive()`); it never assigns `_is_connected` nor
sends anything, so the flag and the outbound transcript pass through. -/
def client_wait_response (response_checker : Option PVal → Bool)
    (elapsed : Nat → Int) (fuel : Nat) (timeout : Int) (idx : Nat)
    (st : ClientState) : Option (Except Err (Option PVal) × ClientState) :=
  (wait_response response_checker elapsed fuel timeout idx st.stream).map
    (fun r => (r.1, { st with stream := r.2 }))

/-- An inbound script item that is a keep-alive message. -/
def isKaItem : TransportItem → Bool
  | .msg m => is_keep_alive_response m
  | .timeoutSig => false

/-- An inbound script item that the scanning loop of `receive(wait_id=w)`
skips: a keep-alive, or a message whose `id` key holds an id other than
`w`. -/
def skippedItem (w : String) : TransportItem → Bool
  | .msg m =>
    is_keep_alive_response m ||
      (match m.id with
       | some i => decide (i ≠ w)
       | none => false)
  | .timeoutSig => false

/-- Discriminator for the spec's `ProtocolViolationError` kind. -/
def errIsProtocolViolation : Err → Bool
  | .protocolViolation _ => true
  | _ => false

/-- Modelled from the spec: "every received payload with a non-empty `errors`
collection is a protocol-level error result".  This is the spec's wording of
the error condition, to be compared with the code's key-membership test
`hasErrorsKeyOpt`. -/
def specNonEmptyErrors : Option PVal → Bool
  | some (.obj p) =>
    match p.errors with
    | some l => !l.isEmpty
    | none => false
  | some (.str _) => false
  | none => false

/-- The wall-clock budget left after `n` iterations of the `wait_response`
loop, starting from budget `t` at iteration `idx`: each iteration subtracts
its own elapsed time. -/
def budgetAfter (elapsed : Nat → Int) : Int → Nat → Nat → Int
  | t, _, 0 => t
  | t, idx, n + 1 => budgetAfter elapsed (t - elapsed idx) (idx + 1) n

example :
    receiveLoop (some "7")
      [.msg { type := some "ka" }, .msg { id := some "7", type := some "data" }]
      = (.ok { id := some "7", type := some "data" }, []) := by decide

example :
    receivePayload none [.msg { payload := some (.obj { errors := some [] }) }]
      = (.error (.responseError { payload := some (.obj { errors := some [] }) }), []) := by
  decide

/-- Which items the scanning loop of `receive` silently consumes before
accepting a message: with no correlation only keep-alives, with
`wait_id = some w` keep-alives and messages carrying a different id. -/
def loopSkips (wait_id : Option String) (it : TransportItem) : Bool :=
  match wait_id with
  | none => isKaItem it
  | some w => skippedItem w it

theorem receiveLoop_nil (w : Option String) :
    receiveLoop w [] = (.error .timeoutErr, []) := rfl

theorem receiveLoop_tsig (w : Option String) (rest : List TransportItem) :
    receiveLoop w (.timeoutSig :: rest) = (.error .timeoutErr, rest) := rfl

theorem receiveLoop_ka (w : Option String) (m : Msg) (rest : List TransportItem)
    (h : is_keep_alive_response m = true) :
    receiveLoop w (.msg m :: rest) = receiveLoop w rest := by
  simp [receiveLoop, h]

theorem receiveLoop_accept_uncorrelated (m : Msg) (rest : List TransportItem)
    (h : is_keep_alive_response m = false) :
    receiveLoop none (.msg m :: rest) = (.ok m, rest) := by
  simp [receiveLoop, h]

theorem receiveLoop_missing_id (w : String) (m : Msg) (rest : List TransportItem)
    (h : is_keep_alive_response m = false) (hid : m.id = none) :
    receiveLoop (some w) (.msg m :: rest) = (.error (.keyError "id"), rest) := by
  simp [receiveLoop, h, hid]

theorem receiveLoop_accept_correlated (w : String) (m : Msg) (rest : List TransportItem)
    (h : is_keep_alive_response m = false) (hid : m.id = some w) :
    receiveLoop (some w) (.msg m :: rest) = (.ok m, rest) := by
  simp [receiveLoop, h, hid]

theorem receiveLoop_mismatch (w i : String) (m : Msg) (rest : List TransportItem)
    (h : is_keep_alive_response m = false) (hid : m.id = some i) (hne : i ≠ w) :
    receiveLoop (some w) (.msg m :: rest) = receiveLoop (some w) rest := by
  simp [receiveLoop, h, hid, hne]

/-- Items the loop skips are consumed and gone: scanning a script that opens
with skipped items behaves like scanning its tail. -/
theorem receiveLoop_skip_front (w : Option String) (pre : List TransportItem)
    (hpre : ∀ it ∈ pre, loopSkips w it = true) (s : List TransportItem) :
    receiveLoop w (pre ++ s) = receiveLoop w s := by
  induction pre with
  | nil => rfl
  | cons it rest ih =>
    have hit : loopSkips w it = true := hpre it (by simp)
    have hrest : ∀ it₂ ∈ rest, loopSkips w it₂ = true := fun it₂ h₂ => hpre it₂ (by simp [h₂])
    cases it with
    | timeoutSig =>
      cases w with
      | none => simp [loopSkips, isKaItem] at hit
      | some ww => simp [loopSkips, skippedItem] at hit
    | msg m =>
      by_cases hka : is_keep_alive_response m
      · rw [List.cons_append, receiveLoop_ka w m _ hka, ih hrest]
      · cases w with
        | none => simp [loopSkips, isKaItem, hka] at hit
        | some ww =>
          simp only [loopSkips, skippedItem, hka, Bool.false_or] at hit
          cases hid : m.id with
          | none => rw [hid] at hit; simp at hit
          | some i =>
            rw [hid] at hit
            simp only [decide_eq_true_eq] at hit
            rw [List.cons_append, receiveLoop_mismatch ww i m _ (by simp [hka]) hid hit,
              ih hrest]

/-- A successful scan decomposes the script: everything before the accepted
message was skipped (and is absent from the returned remainder), the
accepted message is never a keep-alive, and under correlation it carries
exactly the awaited id. -/
theorem receiveLoop_ok_decomp (w : Option String) :
    ∀ (s : List TransportItem) (m : Msg) (s₂ : List TransportItem),
      receiveLoop w s = (.ok m, s₂) →
      ∃ pre, s = pre ++ .msg m :: s₂ ∧ (∀ it ∈ pre, loopSkips w it = true) ∧
        is_keep_alive_response m = false ∧ (∀ X, w = some X → m.id = some X) := by
  intro s
  induction s with
  | nil => intro m s₂ h; rw [receiveLoop_nil] at h; exact absurd h (by simp)
  | cons it rest ih =>
    intro m s₂ h
    cases it with
    | timeoutSig => rw [receiveLoop_tsig] at h; exact absurd h (by simp)
    | msg m₀ =>
      by_cases hka : is_keep_alive_response m₀
      · rw [receiveLoop_ka w m₀ rest hka] at h
        obtain ⟨pre, hs, hskip, hmka, hid⟩ := ih m s₂ h
        refine ⟨.msg m₀ :: pre, by simp [hs], ?_, hmka, hid⟩
        intro it hit
        rcases List.mem_cons.mp hit with h₁ | h₂
        · subst h₁
          cases w with
          | none => simpa [loopSkips, isKaItem] using hka
          | some ww => simp [loopSkips, skippedItem, hka]
        · exact hskip it h₂
      · cases w with
        | none =>
          rw [receiveLoop_accept_uncorrelated m₀ rest (by simpa using hka)] at h
          injection h with h₁ h₂
          injection h₁ with h₁
          subst h₁; subst h₂
          exact ⟨[], by simp, by simp, by simpa using hka, by simp⟩
        | some ww =>
          cases hid₀ : m₀.id with
          | none =>
            rw [receiveLoop_missing_id ww m₀ rest (by simpa using hka) hid₀] at h
            exact absurd h (by simp)
          | some i =>
            by_cases hiw : i = ww
            · subst hiw
              rw [receiveLoop_accept_correlated i m₀ rest (by simpa using hka) hid₀] at h
              injection h with h₁ h₂
              injection h₁ with h₁
              subst h₁; subst h₂
              refine ⟨[], by simp, by simp, by simpa using hka, ?_⟩
              intro X hX
              injection hX with hX
              subst hX
              exact hid₀
            · rw [receiveLoop_mismatch ww i m₀ rest (by simpa using hka) hid₀ hiw] at h
              obtain ⟨pre, hs, hskip, hmka, hid⟩ := ih m s₂ h
              refine ⟨.msg m₀ :: pre, by simp [hs], ?_, hmka, hid⟩
              intro it hit
              rcases List.mem_cons.mp hit with h₁ | h₂
              · subst h₁
                simp [loopSkips, skippedItem, hid₀, hiw]
              · exact hskip it h₂

/-- The scanning loop only consumes from the front: what it returns unread is
a suffix of the script it was given. -/
theorem receiveLoop_suffix (w : Option String) :
    ∀ (s : List TransportItem) (r : Except Err Msg) (s₂ : List TransportItem),
      receiveLoop w s = (r, s₂) → s₂ <:+ s := by
  intro s
  induction s with
  | nil =>
    intro r s₂ h
    rw [receiveLoop_nil] at h
    injection h with h₁ h₂
    subst h₂
    exact List.nil_suffix
  | cons it rest ih =>
    intro r s₂ h
    cases it with
    | timeoutSig =>
      rw [receiveLoop_tsig] at h
      injection h with h₁ h₂
      subst h₂
      exact List.suffix_cons _ _
    | msg m₀ =>
      by_cases hka : is_keep_alive_response m₀
      · rw [receiveLoop_ka w m₀ rest hka] at h
        exact (ih r s₂ h).trans (List.suffix_cons _ _)
      · cases w with
        | none =>
          rw [receiveLoop_accept_uncorrelated m₀ rest (by simpa using hka)] at h
          injection h with h₁ h₂
          subst h₂
          exact List.suffix_cons _ _
        | some ww =>
          cases hid₀ : m₀.id with
          | none =>
            rw [receiveLoop_missing_id ww m₀ rest (by simpa using hka) hid₀] at h
            injection h with h₁ h₂
            subst h₂
            exact List.suffix_cons _ _
          | some i =>
            by_cases hiw : i = ww
            · subst hiw
              rw [receiveLoop_accept_correlated i m₀ rest (by simpa using hka) hid₀] at h
              injection h with h₁ h₂
              subst h₂
              exact List.suffix_cons _ _
            · rw [receiveLoop_mismatch ww i m₀ rest (by simpa using hka) hid₀ hiw] at h
              exact (ih r s₂ h).trans (List.suffix_cons _ _)

/-- With the `assert` arguments at their defaults the checks are no-ops, so
`receiveMsg` is the scanning loop followed by the payload error test. -/
theorem receiveMsg_none_asserts (w : Option String) (s : List TransportItem) :
    receiveMsg w none none s =
      match receiveLoop w s with
      | (.error e, rest) => (.error e, rest)
      | (.ok m, rest) =>
        if hasErrorsKeyOpt m.payload then (.error (.responseError m), rest)
        else (.ok m, rest) := by
  unfold receiveMsg
  rcases hres : receiveLoop w s with ⟨rl, rest⟩
  cases rl <;> simp [typeCheck, idCheck]

/-- Likewise `receivePayload`, projecting the payload on success. -/
theorem receivePayload_eq (w : Option String) (s : List TransportItem) :
    receivePayload w s =
      match receiveLoop w s with
      | (.error e, rest) => (.error e, rest)
      | (.ok m, rest) =>
        if hasErrorsKeyOpt m.payload then (.error (.responseError m), rest)
        else (.ok m.payload, rest) := by
  unfold receivePayload
  rw [receiveMsg_none_asserts]
  rcases hres : receiveLoop w s with ⟨rl, rest⟩
  cases rl with
  | error e => simp
  | ok m => by_cases he : hasErrorsKeyOpt m.payload <;> simp [he]

/-- Whatever `receiveMsg` reports, the unread remainder of the script is the
one the scanning loop left. -/
theorem receiveMsg_snd (w a t : Option String) (s : List TransportItem) :
    (receiveMsg w a t s).2 = (receiveLoop w s).2 := by
  unfold receiveMsg
  rcases hres : receiveLoop w s with ⟨rl, rest⟩
  cases rl with
  | error e => simp
  | ok m =>
    cases htc : typeCheck t m with
    | error e => simp [htc]
    | ok u =>
      cases u
      cases hic : idCheck a m with
      | error e => simp [htc, hic]
      | ok u =>
        cases u
        by_cases he : hasErrorsKeyOpt m.payload <;> simp [htc, hic, he]

theorem receivePayload_snd (w : Option String) (s : List TransportItem) :
    (receivePayload w s).2 = (receiveLoop w s).2 := by
  unfold receivePayload
  rw [← receiveMsg_snd w none none s]
  rcases hres : receiveMsg w none none s with ⟨rl, rest⟩
  cases rl <;> simp

theorem receivePayload_suffix (w : Option String) (s : List TransportItem)
    (r : Except Err (Option PVal)) (s₂ : List TransportItem)
    (h : receivePayload w s = (r, s₂)) : s₂ <:+ s := by
  rcases hres : receiveLoop w s with ⟨rl, rest⟩
  have hsuf := receiveLoop_suffix w s rl rest hres
  have hp := receivePayload_snd w s
  rw [h, hres] at hp
  have h₂ : s₂ = rest := hp
  rw [h₂]
  exact hsuf

/-- Lemma: `wait_response` only consumes from the front of the inbound script. -/
theorem wait_response_suffix (c : Option PVal → Bool) (e : Nat → Int) :
    ∀ (fuel : Nat) (t : Int) (idx : Nat) (s : List TransportItem)
      (r : Except Err (Option PVal)) (s₂ : List TransportItem),
      wait_response c e fuel t idx s = some (r, s₂) → s₂ <:+ s := by
  intro fuel
  induction fuel with
  | zero => intro t idx s r s₂ h; simp [wait_response] at h
  | succ n ih =>
    intro t idx s r s₂ h
    rw [wait_response] at h
    by_cases ht : t ≤ 0
    · rw [if_pos ht] at h
      injection h with h₁
      injection h₁ with h₁ h₂
      subst h₂
      exact List.suffix_refl _
    · rw [if_neg ht] at h
      rcases hrp : receivePayload none s with ⟨rp, rest⟩
      rw [hrp] at h
      have hsuf : rest <:+ s := receivePayload_suffix none s rp rest hrp
      cases rp with
      | ok p =>
        cases hc : c p with
        | true =>
          simp [hc] at h
          obtain ⟨h₁, h₂⟩ := h
          subst h₂
          exact hsuf
        | false =>
          simp [hc] at h
          exact (ih _ _ _ r s₂ h).trans hsuf
      | error err =>
        by_cases he : err = Err.timeoutErr
        · subst he
          simp at h
          exact (ih _ _ _ r s₂ h).trans hsuf
        · simp [he] at h
          obtain ⟨h₁, h₂⟩ := h
          subst h₂
          exact hsuf

theorem isKaItem_loopSkips (w : Option String) (it : TransportItem)
    (h : isKaItem it = true) : loopSkips w it = true := by
  cases it with
  | timeoutSig => simp [isKaItem] at h
  | msg m =>
    cases w with
    | none => exact h
    | some ww => simp [loopSkips, skippedItem, show is_keep_alive_response m = true from h]

/-- Keep-alives at the front of the script are invisible to the scanning
loop, whatever the caller waits for. -/
theorem receiveLoop_ka_front (w : Option String) (kas : List TransportItem)
    (hkas : ∀ it ∈ kas, isKaItem it = true) (s : List TransportItem) :
    receiveLoop w (kas ++ s) = receiveLoop w s :=
  receiveLoop_skip_front w kas (fun it h => isKaItem_loopSkips w it (hkas it h)) s

/-- Claim C1: for every inbound sequence in which any number of keep-alive
messages (type `"ka"`) precede the reply whose id is `X`, `receive(wait_id=X)`
accepts exactly that reply — whatever the keep-alives carry — and the
scanning loop can never terminate on a keep-alive, whatever the caller waits
for; when the reply is not an error result, `receive` returns it. -/
theorem receive_invisible_keep_alives
    (X : String) (kas rest : List TransportItem) (reply : Msg)
    (hkas : ∀ it ∈ kas, isKaItem it = true)
    (hid : reply.id = some X) (hka : is_keep_alive_response reply = false) :
    receiveLoop (some X) (kas ++ .msg reply :: rest) = (.ok reply, rest)
    ∧ (∀ (w : Option String) (s s₂ : List TransportItem) (m : Msg),
        receiveLoop w s = (.ok m, s₂) → is_keep_alive_response m = false)
    ∧ (hasErrorsKeyOpt reply.payload = false →
        receive (some X) none none true (kas ++ .msg reply :: rest)
          = (.ok (.raw reply), rest)) := by
  have hacc : receiveLoop (some X) (kas ++ .msg reply :: rest) = (.ok reply, rest) := by
    rw [receiveLoop_ka_front (some X) kas hkas,
      receiveLoop_accept_correlated X reply rest hka hid]
  refine ⟨hacc, ?_, ?_⟩
  · intro w s s₂ m h
    obtain ⟨_, _, _, hmka, _⟩ := receiveLoop_ok_decomp w s m s₂ h
    exact hmka
  · intro herr
    unfold receive
    rw [receiveMsg_none_asserts, hacc]
    simp [herr]

theorem receive_invisible_keep_alives_witness :
    receiveLoop (some "7")
      ([.msg { type := some "ka", id := some "9",
               payload := some (.obj { errors := some ["x"] }) }]
        ++ .msg { id := some "7", type := some "data" } :: [])
      = (.ok { id := some "7", type := some "data" }, [])
    ∧ receive (some "7") none none true
        ([.msg { type := some "ka", id := some "9",
                 payload := some (.obj { errors := some ["x"] }) }]
          ++ .msg { id := some "7", type := some "data" } :: [])
        = (.ok (.raw { id := some "7", type := some "data" }), []) :=
  have T := receive_invisible_keep_alives "7"
    [.msg { type := some "ka", id := some "9",
            payload := some (.obj { errors := some ["x"] }) }]
    [] { id := some "7", type := some "data" }
    (by decide) (by decide) (by decide)
  ⟨T.1, T.2.2 (by decide)⟩

/-- Claim C5: a correlated `receive(wait_id=X)` discards without buffering:
the accepted reply carries id `X`, everything scanned before it was a
keep-alive or a differently-addressed message, and the client retains only
the part of the script strictly after the accepted reply — so a subsequent
`receive` draws its own accepted message from that strict suffix and can
never observe a message the first call skipped. -/
theorem receive_mismatch_not_buffered
    (X : String) (s s₂ : List TransportItem) (m₁ : Msg)
    (h₁ : receiveLoop (some X) s = (.ok m₁, s₂)) :
    (m₁.id = some X
      ∧ ∃ pre, s = pre ++ .msg m₁ :: s₂ ∧ ∀ it ∈ pre, skippedItem X it = true)
    ∧ ∀ (w₂ : Option String) (m₂ : Msg) (s₃ : List TransportItem),
        receiveLoop w₂ s₂ = (.ok m₂, s₃) →
        ∃ pre mid, s = pre ++ .msg m₁ :: mid ++ .msg m₂ :: s₃
          ∧ ∀ it ∈ pre, skippedItem X it = true := by
  obtain ⟨pre, hs, hskip, hmka, hid⟩ := receiveLoop_ok_decomp (some X) s m₁ s₂ h₁
  have hskip₂ : ∀ it ∈ pre, skippedItem X it = true := fun it h => hskip it h
  refine ⟨⟨hid X rfl, pre, hs, hskip₂⟩, ?_⟩
  intro w₂ m₂ s₃ h₂
  obtain ⟨pre₂, hs₂, _, _, _⟩ := receiveLoop_ok_decomp w₂ s₂ m₂ s₃ h₂
  exact ⟨pre, pre₂, by rw [hs, hs₂]; simp, hskip₂⟩

theorem receive_mismatch_not_buffered_witness :
    (Msg.id { id := some "7", type := some "data" } = some "7"
      ∧ ∃ pre, [.msg { id := some "5", type := some "data" },
                .msg { id := some "7", type := some "data" },
                .msg { id := some "2", type := some "data" }]
          = pre ++ .msg { id := some "7", type := some "data" }
              :: [TransportItem.msg { id := some "2", type := some "data" }]
          ∧ ∀ it ∈ pre, skippedItem "7" it = true)
    ∧ ∃ pre mid, [.msg { id := some "5", type := some "data" },
                  .msg { id := some "7", type := some "data" },
                  .msg { id := some "2", type := some "data" }]
        = pre ++ .msg { id := some "7", type := some "data" }
            :: mid ++ .msg { id := some "2", type := some "data" } :: []
        ∧ ∀ it ∈ pre, skippedItem "7" it = true :=
  have T := receive_mismatch_not_buffered "7"
    [.msg { id := some "5", type := some "data" },
     .msg { id := some "7", type := some "data" },
     .msg { id := some "2", type := some "data" }]
    [.msg { id := some "2", type := some "data" }]
    { id := some "7", type := some "data" } (by decide)
  ⟨T.1, T.2 (some "2") { id := some "2", type := some "data" } [] (by decide)⟩

/-- Claim C9: during a correlated wait, a non-keep-alive message with no `id`
key is neither skipped nor returned — `response["id"]` raises `KeyError`,
which escapes `receive` to its caller. -/
theorem receive_missing_id_keyerror
    (X : String) (a t : Option String) (raw : Bool)
    (kas rest : List TransportItem) (m : Msg)
    (hkas : ∀ it ∈ kas, isKaItem it = true)
    (hka : is_keep_alive_response m = false) (hid : m.id = none) :
    receiveLoop (some X) (kas ++ .msg m :: rest) = (.error (.keyError "id"), rest)
    ∧ receive (some X) a t raw (kas ++ .msg m :: rest)
        = (.error (.keyError "id"), rest) := by
  have hacc : receiveLoop (some X) (kas ++ .msg m :: rest)
      = (.error (.keyError "id"), rest) := by
    rw [receiveLoop_ka_front (some X) kas hkas, receiveLoop_missing_id X m rest hka hid]
  refine ⟨hacc, ?_⟩
  unfold receive receiveMsg
  rw [hacc]

theorem receive_missing_id_keyerror_witness :
    receiveLoop (some "7")
      ([.msg { type := some "ka" }] ++ .msg { type := some "data" } :: [])
      = (.error (.keyError "id"), [])
    ∧ receive (some "7") none none false
        ([.msg { type := some "ka" }] ++ .msg { type := some "data" } :: [])
        = (.error (.keyError "id"), []) :=
  receive_missing_id_keyerror "7" none none false
    [.msg { type := some "ka" }] [] { type := some "data" }
    (by decide) (by decide) (by decide)

/-- Claim C7: the three-valued id argument of `send`.  Explicit absence
(`msg_id=None`) produces a message with no `id` field at all and returns
`None`; the `AUTO` marker produces the freshly generated id and returns it;
an explicit id is transmitted verbatim.  `type` and `payload` are omitted
entirely from the message when not provided (the `none` field models key
absence, so parsing the built message back trivially yields no `id` key). -/
theorem send_three_valued_id (fresh i : String) (msg_type : Option String)
    (payload : Option PVal) (st : ClientState) :
    send fresh .noId msg_type payload
        = ({ id := none, type := msg_type, payload := payload }, none)
    ∧ send fresh .auto msg_type payload
        = ({ id := some fresh, type := msg_type, payload := payload }, some fresh)
    ∧ send fresh (.given i) msg_type payload
        = ({ id := some i, type := msg_type, payload := payload }, some i)
    ∧ (clientSend fresh .noId msg_type payload st).2.sent
        = st.sent ++ [{ id := none, type := msg_type, payload := payload }] := by
  cases msg_type <;> cases payload <;> exact ⟨rfl, rfl, rfl, rfl⟩

/-- Claim C2, counterexample: a payload whose `errors` collection is present
but empty is, per the claim, "not an error result" and `receive` should
return normally; the code tests key membership (`"errors" in payload`), so it
raises `GraphqlWsResponseError` anyway. -/
theorem receive_empty_errors_counterexample :
    specNonEmptyErrors (some (PVal.obj { errors := some [] })) = false
    ∧ receive none none none false
        [.msg { id := some "1", type := some "data",
                payload := some (.obj { errors := some [] }) }]
        = (.error (.responseError
            { id := some "1", type := some "data",
              payload := some (.obj { errors := some [] }) }), []) := by
  decide

/-- Claim C2, amended: `receive` raises `GraphqlWsResponseError` (carrying
the full response) if and only if the accepted message's payload is present
and contains an `errors` key — present-but-empty included; when the key is
absent (or the payload is missing) `receive` returns normally. -/
theorem receive_response_error_iff
    (wait_id : Option String) (raw : Bool) (s s₂ : List TransportItem) (m : Msg)
    (h : receiveLoop wait_id s = (.ok m, s₂)) :
    ((receive wait_id none none raw s).1 = .error (.responseError m)
        ↔ hasErrorsKeyOpt m.payload = true)
    ∧ (hasErrorsKeyOpt m.payload = false →
        receive wait_id none none raw s
          = (.ok (if raw then .raw m else .payload m.payload), s₂)) := by
  unfold receive
  rw [receiveMsg_none_asserts, h]
  by_cases he : hasErrorsKeyOpt m.payload
  · simp [he]
  · simp [he]
    cases raw <;> simp

theorem receive_response_error_iff_witness :
    (receive none none none false
        [.msg { id := some "1", payload := some (.obj { errors := some ["e"] }) }]).1
      = .error (.responseError
          { id := some "1", payload := some (.obj { errors := some ["e"] }) })
    ∧ receive none none none false
        [.msg { id := some "2", payload := some (.obj { data := some "d" }) }]
      = (.ok (.payload (some (.obj { data := some "d" }))), []) :=
  have T₁ := receive_response_error_iff none false
    [.msg { id := some "1", payload := some (.obj { errors := some ["e"] }) }] []
    { id := some "1", payload := some (.obj { errors := some ["e"] }) } (by decide)
  have T₂ := receive_response_error_iff none false
    [.msg { id := some "2", payload := some (.obj { data := some "d" }) }] []
    { id := some "2", payload := some (.obj { data := some "d" }) } (by decide)
  ⟨T₁.1.mpr (by decide), T₂.2 (by decide)⟩

/-- Characterizes `execute` in terms of its two correlated receives: the result is the
first receive's outcome unless the cleanup receive failed, and the client
keeps the script left after both receives. -/
theorem execute_eq (fresh : String) (dedent : String → String) (query : String)
    (variablesArg : Option (List (String × String))) (st : ClientState) :
    execute fresh dedent query variablesArg st
      = ((match (receivePayload (some fresh)
              ((receivePayload (some fresh) st.stream).2)).1 with
          | .error e₂ => .error e₂
          | .ok _ => (receivePayload (some fresh) st.stream).1),
         { connected := st.connected,
           stream := (receivePayload (some fresh)
             ((receivePayload (some fresh) st.stream).2)).2,
           sent := st.sent ++ [(send fresh .auto (some "start")
             (some (.obj { query := some (dedent query),
                           vars := some (varsOr variablesArg) }))).1] }) := by
  rcases h₁ : receivePayload (some fresh) st.stream with ⟨r₁, s₁⟩
  rcases h₂ : receivePayload (some fresh) s₁ with ⟨r₂, s₂⟩
  cases r₂ <;> simp [execute, start, clientSend, send, h₁, h₂]

/-- Claim C3, counterexample: with a single inbound message — the correlated
result carrying an `errors` payload — the first receive raises
`GraphqlWsResponseError` and the cleanup receive then itself fails (transport
timeout); Python's `finally` lets the cleanup's exception replace the first
one, so `execute` propagates `TimeoutError`, not the first failure, refuting
"when the first receive raises the first failure is the one propagated". -/
theorem execute_cleanup_failure_counterexample :
    (execute "1" id "q" none
        { connected := true,
          stream := [.msg { id := some "1", type := some "data",
                            payload := some (.obj { errors := some ["boom"] }) }],
          sent := [] }).1 = .error Err.timeoutErr
    ∧ (receivePayload (some "1")
        [.msg { id := some "1", type := some "data",
                payload := some (.obj { errors := some ["boom"] }) }]).1
        = .error (.responseError
            { id := some "1", type := some "data",
              payload := some (.obj { errors := some ["boom"] }) })
    ∧ Err.timeoutErr
        ≠ Err.responseError { id := some "1", type := some "data",
                              payload := some (.obj { errors := some ["boom"] }) } := by
  decide

/-- Claim C3, amended: `execute` performs exactly two correlated receives
with the id returned by `start`; the cleanup receive is attempted even when
the first receive raises (the retained script always reflects both); when
the first receive raises and the cleanup receive succeeds, the first failure
is the one propagated — only after the cleanup attempt; when the cleanup
receive itself fails, Python `finally` semantics propagate the cleanup's
failure instead. -/
theorem execute_two_receives
    (fresh : String) (dedent : String → String) (query : String)
    (variablesArg : Option (List (String × String))) (st : ClientState) :
    (start fresh dedent query variablesArg st).1 = some fresh
    ∧ (execute fresh dedent query variablesArg st).2.stream
        = (receivePayload (some fresh) ((receivePayload (some fresh) st.stream).2)).2
    ∧ (∀ e₁ s₁ v₂ s₂,
        receivePayload (some fresh) st.stream = (.error e₁, s₁) →
        receivePayload (some fresh) s₁ = (.ok v₂, s₂) →
        (execute fresh dedent query variablesArg st).1 = .error e₁)
    ∧ (∀ r₁ s₁ e₂ s₂,
        receivePayload (some fresh) st.stream = (r₁, s₁) →
        receivePayload (some fresh) s₁ = (.error e₂, s₂) →
        (execute fresh dedent query variablesArg st).1 = .error e₂)
    ∧ (∀ v₁ s₁ v₂ s₂,
        receivePayload (some fresh) st.stream = (.ok v₁, s₁) →
        receivePayload (some fresh) s₁ = (.ok v₂, s₂) →
        (execute fresh dedent query variablesArg st).1 = .ok v₁) := by
  have hex := execute_eq fresh dedent query variablesArg st
  refine ⟨rfl, by rw [hex], ?_, ?_, ?_⟩
  · intro e₁ s₁ v₂ s₂ h₁ h₂
    rw [hex]
    simp [h₁, h₂]
  · intro r₁ s₁ e₂ s₂ h₁ h₂
    rw [hex]
    simp [h₁, h₂]
  · intro v₁ s₁ v₂ s₂ h₁ h₂
    rw [hex]
    simp [h₁, h₂]

theorem execute_two_receives_witness :
    (start "1" id "q" none
        { connected := true,
          stream := [.msg { id := some "1", type := some "data",
                            payload := some (.obj { data := some "d" }) },
                     .msg { id := some "1", type := some "complete" }],
          sent := [] }).1 = some "1"
    ∧ (execute "1" id "q" none
        { connected := true,
          stream := [.msg { id := some "1", type := some "data",
                            payload := some (.obj { data := some "d" }) },
                     .msg { id := some "1", type := some "complete" }],
          sent := [] }).1 = .ok (some (.obj { data := some "d" }))
    ∧ (execute "1" id "q" none
        { connected := true,
          stream := [.msg { id := some "1", type := some "data",
                            payload := some (.obj { errors := some ["boom"] }) },
                     .msg { id := some "1", type := some "complete" }],
          sent := [] }).1
        = .error (.responseError
            { id := some "1", type := some "data",
              payload := some (.obj { errors := some ["boom"] }) }) :=
  have TA := execute_two_receives "1" id "q" none
    { connected := true,
      stream := [.msg { id := some "1", type := some "data",
                        payload := some (.obj { data := some "d" }) },
                 .msg { id := some "1", type := some "complete" }],
      sent := [] }
  have TB := execute_two_receives "1" id "q" none
    { connected := true,
      stream := [.msg { id := some "1", type := some "data",
                        payload := some (.obj { errors := some ["boom"] }) },
                 .msg { id := some "1", type := some "complete" }],
      sent := [] }
  ⟨TA.1,
   TA.2.2.2.2 (some (.obj { data := some "d" }))
     [.msg { id := some "1", type := some "complete" }] none []
     (by decide) (by decide),
   TB.2.2.1 (.responseError { id := some "1", type := some "data",
                              payload := some (.obj { errors := some ["boom"] }) })
     [.msg { id := some "1", type := some "complete" }] none []
     (by decide) (by decide)⟩

/-- Claim C6, counterexample: on a reply of type `"error"` instead of
`"connection_ack"`, `connect_and_init` fails via the `assert` statement —
an `AssertionError`, not the spec's typed `ProtocolViolationError` — and the
client is not marked connected.  The claim's "fails with a typed, catchable
ProtocolViolationError" is false of the code at this input. -/
theorem connect_and_init_counterexample :
    (connect_and_init false
        { connected := false, stream := [.msg { type := some "error" }],
          sent := [] }).1
      = .error (.assertionError "Unexpected response")
    ∧ errIsProtocolViolation (Err.assertionError "Unexpected response") = false
    ∧ (connect_and_init false
        { connected := false, stream := [.msg { type := some "error" }],
          sent := [] }).2.connected = false := by
  decide

/-- Claim C6, amended: after sending `connection_init`, a blocking receive
whose reply's type is anything other than `"connection_ack"` makes
`connect_and_init` fail with the `assert` statement's `AssertionError`
(catchable, but not a distinct `ProtocolViolationError` type; a reply with
no `type` key raises `KeyError`), leaving the connected flag unchanged; on a
`"connection_ack"` reply the client becomes connected. -/
theorem connect_and_init_requires_ack
    (st : ClientState) (resp : Msg) (rest : List TransportItem)
    (hs : st.stream = .msg resp :: rest) :
    (∀ t, resp.type = some t → t ≠ "connection_ack" →
      (connect_and_init false st).1 = .error (.assertionError "Unexpected response")
      ∧ (connect_and_init false st).2.connected = st.connected)
    ∧ (resp.type = some "connection_ack" →
      (connect_and_init false st).1 = .ok ()
      ∧ (connect_and_init false st).2.connected = true)
    ∧ (resp.type = none →
      (connect_and_init false st).1 = .error (.keyError "type")
      ∧ (connect_and_init false st).2.connected = st.connected) := by
  refine ⟨?_, ?_, ?_⟩
  · intro t ht hne
    constructor <;> simp [connect_and_init, hs, transportReceive, ht, hne]
  · intro ht
    constructor <;> simp [connect_and_init, hs, transportReceive, ht]
  · intro ht
    constructor <;> simp [connect_and_init, hs, transportReceive, ht]

theorem connect_and_init_requires_ack_witness :
    ((connect_and_init false
        { connected := false, stream := [.msg { type := some "bogus" }],
          sent := [] }).1 = .error (.assertionError "Unexpected response")
      ∧ (connect_and_init false
          { connected := false, stream := [.msg { type := some "bogus" }],
            sent := [] }).2.connected
        = ClientState.connected
            { connected := false, stream := [.msg { type := some "bogus" }],
              sent := [] })
    ∧ ((connect_and_init false
        { connected := false, stream := [.msg { type := some "connection_ack" }],
          sent := [] }).1 = .ok ()
      ∧ (connect_and_init false
          { connected := false, stream := [.msg { type := some "connection_ack" }],
            sent := [] }).2.connected = true) :=
  have T₁ := connect_and_init_requires_ack
    { connected := false, stream := [.msg { type := some "bogus" }], sent := [] }
    { type := some "bogus" } [] rfl
  have T₂ := connect_and_init_requires_ack
    { connected := false, stream := [.msg { type := some "connection_ack" }], sent := [] }
    { type := some "connection_ack" } [] rfl
  ⟨T₁.1 "bogus" rfl (by decide), T₂.2.1 rfl⟩

/-- Claim C8: a `wait_response` that ends in `TimeoutError` leaves the
Connection State unchanged — a connected client is still connected, nothing
was sent — and it consumed only a front segment of the inbound script: the
retained stream is a suffix of the original, so no transport message beyond
those it read and discarded was touched. -/
theorem wait_response_timeout_frame
    (response_checker : Option PVal → Bool) (elapsed : Nat → Int)
    (fuel : Nat) (timeout : Int) (idx : Nat) (st st₂ : ClientState)
    (hconn : st.connected = true)
    (h : client_wait_response response_checker elapsed fuel timeout idx st
        = some (.error Err.timeoutErr, st₂)) :
    st₂.connected = true ∧ st₂.sent = st.sent ∧ st₂.stream <:+ st.stream := by
  unfold client_wait_response at h
  rcases hw : wait_response response_checker elapsed fuel timeout idx st.stream
    with _ | ⟨r, s₂⟩
  · rw [hw] at h
    simp at h
  · rw [hw] at h
    simp only [Option.map_some'] at h
    rw [Option.some.injEq, Prod.mk.injEq] at h
    obtain ⟨hr, hst⟩ := h
    subst hst
    exact ⟨hconn, rfl,
      wait_response_suffix response_checker elapsed fuel timeout idx st.stream r s₂ hw⟩

theorem wait_response_timeout_frame_witness :
    ClientState.connected { connected := true, stream := [], sent := [] } = true
    ∧ ClientState.sent { connected := true, stream := [], sent := [] }
      = ClientState.sent
          { connected := true, stream := [.msg { type := some "ka" }], sent := [] }
    ∧ ClientState.stream { connected := true, stream := [], sent := [] }
      <:+ ClientState.stream
          { connected := true, stream := [.msg { type := some "ka" }], sent := [] } :=
  wait_response_timeout_frame (fun _ => false) (fun _ => 2) 2 1 0
    { connected := true, stream := [.msg { type := some "ka" }], sent := [] }
    { connected := true, stream := [], sent := [] }
    rfl (by decide)

/-- If the loop of `wait_response` raises `TimeoutError`, the wall-clock
budget had dropped to or below zero: some number of completed iterations
drove it there, and it was still positive at every earlier guard check. -/
theorem wait_response_timeout_budget (c : Option PVal → Bool) (e : Nat → Int) :
    ∀ (fuel : Nat) (t : Int) (idx : Nat) (s s₂ : List TransportItem),
      wait_response c e fuel t idx s = some (.error Err.timeoutErr, s₂) →
      ∃ n, n ≤ fuel ∧ budgetAfter e t idx n ≤ 0
        ∧ ∀ k < n, 0 < budgetAfter e t idx k := by
  intro fuel
  induction fuel with
  | zero => intro t idx s s₂ h; simp [wait_response] at h
  | succ n ih =>
    intro t idx s s₂ h
    rw [wait_response] at h
    by_cases ht : t ≤ 0
    · refine ⟨0, Nat.zero_le _, by simpa [budgetAfter] using ht, ?_⟩
      intro k hk
      exact absurd hk (Nat.not_lt_zero k)
    · rw [if_neg ht] at h
      rcases hrp : receivePayload none s with ⟨rp, rest⟩
      rw [hrp] at h
      have hpos : 0 < t := lt_of_not_le ht
      cases rp with
      | ok p =>
        cases hc : c p with
        | true => simp [hc] at h
        | false =>
          simp only [hc, Bool.false_eq_true, if_false] at h
          obtain ⟨m, hm, hb, hk⟩ := ih (t - e idx) (idx + 1) rest s₂ h
          refine ⟨m + 1, Nat.succ_le_succ hm, hb, ?_⟩
          intro k hklt
          cases k with
          | zero => simpa [budgetAfter] using hpos
          | succ j => exact hk j (Nat.lt_of_succ_lt_succ hklt)
      | error err =>
        by_cases he : err = Err.timeoutErr
        · subst he
          simp only [if_pos rfl] at h
          obtain ⟨m, hm, hb, hk⟩ := ih (t - e idx) (idx + 1) rest s₂ h
          refine ⟨m + 1, Nat.succ_le_succ hm, hb, ?_⟩
          intro k hklt
          cases k with
          | zero => simpa [budgetAfter] using hpos
          | succ j => exact hk j (Nat.lt_of_succ_lt_succ hklt)
        · simp only [if_neg he] at h
          rw [Option.some.injEq, Prod.mk.injEq] at h
          obtain ⟨h₁, _⟩ := h
          injection h₁ with h₁
          exact absurd h₁ he

/-- Claim C4: `wait_response` recomputes the remaining budget by subtracting
each iteration's elapsed wall-clock time; a transport-level `TimeoutError`
from one `receive` is swallowed and the loop continues on the reduced
budget; `TimeoutError` reaches the caller exactly at a guard check with the
budget at or below zero — in particular even when a message arrived in the
final iteration without satisfying the predicate — and conversely a raised
`TimeoutError` means the budget had dropped to or below zero, having been
positive at every earlier check. -/
theorem wait_response_deadline
    (response_checker : Option PVal → Bool) (elapsed : Nat → Int)
    (fuel : Nat) (timeout : Int) (idx : Nat) :
    (∀ s, timeout ≤ 0 →
      wait_response response_checker elapsed (fuel + 1) timeout idx s
        = some (.error Err.timeoutErr, s))
    ∧ (∀ rest, 0 < timeout →
      wait_response response_checker elapsed (fuel + 1) timeout idx
          (.timeoutSig :: rest)
        = wait_response response_checker elapsed fuel (timeout - elapsed idx)
            (idx + 1) rest)
    ∧ (∀ m rest, 0 < timeout → is_keep_alive_response m = false →
        hasErrorsKeyOpt m.payload = false → response_checker m.payload = false →
        timeout - elapsed idx ≤ 0 →
      wait_response response_checker elapsed (fuel + 2) timeout idx (.msg m :: rest)
        = some (.error Err.timeoutErr, rest))
    ∧ (∀ s s₂,
        wait_response response_checker elapsed fuel timeout idx s
          = some (.error Err.timeoutErr, s₂) →
        ∃ n, n ≤ fuel ∧ budgetAfter elapsed timeout idx n ≤ 0
          ∧ ∀ k < n, 0 < budgetAfter elapsed timeout idx k) := by
  refine ⟨?_, ?_, ?_, wait_response_timeout_budget response_checker elapsed fuel timeout idx⟩
  · intro s ht
    simp [wait_response, ht]
  · intro rest ht
    have hrp : receivePayload none (.timeoutSig :: rest)
        = (.error Err.timeoutErr, rest) := by
      rw [receivePayload_eq, receiveLoop_tsig]
    simp [wait_response, show ¬ timeout ≤ 0 from not_le.mpr ht, hrp]
  · intro m rest ht hka herr hc hle
    have hrp : receivePayload none (.msg m :: rest) = (.ok m.payload, rest) := by
      rw [receivePayload_eq, receiveLoop_accept_uncorrelated m rest hka]
      simp [herr]
    simp [wait_response, show ¬ timeout ≤ 0 from not_le.mpr ht, hrp, hc, hle]

theorem wait_response_deadline_witness :
    wait_response (fun _ => false) (fun _ => 1) 1 (-1) 0 [] 
      = some (.error Err.timeoutErr, [])
    ∧ wait_response (fun _ => false) (fun _ => 1) 1 2 0 [.timeoutSig]
      = wait_response (fun _ => false) (fun _ => 1) 0 (2 - 1) 1 []
    ∧ wait_response (fun _ => false) (fun _ => 1) 2 1 0
        [.msg { id := some "1", type := some "data" }]
      = some (.error Err.timeoutErr, [])
    ∧ ∃ n, n ≤ 2 ∧ budgetAfter (fun _ => 1) 1 0 n ≤ 0
        ∧ ∀ k < n, 0 < budgetAfter (fun _ => 1) 1 0 k :=
  have T₁ := wait_response_deadline (fun _ => false) (fun _ => 1) 0 (-1) 0
  have T₂ := wait_response_deadline (fun _ => false) (fun _ => 1) 0 2 0
  have T₃ := wait_response_deadline (fun _ => false) (fun _ => 1) 0 1 0
  have T₄ := wait_response_deadline (fun _ => false) (fun _ => 1) 2 1 0
  ⟨T₁.1 [] (by decide),
   T₂.2.1 [] (by decide),
   T₃.2.2.1 { id := some "1", type := some "data" } [] (by decide) (by decide)
     (by decide) (by decide) (by decide),
   T₄.2.2.2 [] [] (by decide)⟩

/-- Claim C10: `wait_response` never treats an application-level error
response as a skippable intermediate message: any non-`TimeoutError`
exception from the underlying `receive` — in particular the
`GraphqlWsResponseError` raised when the next accepted message's payload
contains an `errors` key — propagates immediately to the caller, whatever
the predicate would have said; only a transport-level `TimeoutError` is
swallowed. -/
theorem wait_response_propagates_response_error
    (response_checker : Option PVal → Bool) (elapsed : Nat → Int)
    (fuel : Nat) (timeout : Int) (idx : Nat) :
    (∀ e s rest, 0 < timeout →
        receivePayload none s = (.error e, rest) → e ≠ Err.timeoutErr →
      wait_response response_checker elapsed (fuel + 1) timeout idx s
        = some (.error e, rest))
    ∧ (∀ m rest, 0 < timeout → is_keep_alive_response m = false →
        hasErrorsKeyOpt m.payload = true →
      wait_response response_checker elapsed (fuel + 1) timeout idx (.msg m :: rest)
        = some (.error (.responseError m), rest)) := by
  constructor
  · intro e s rest ht hrp hne
    simp [wait_response, show ¬ timeout ≤ 0 from not_le.mpr ht, hrp, hne]
  · intro m rest ht hka herr
    have hrp : receivePayload none (.msg m :: rest)
        = (.error (.responseError m), rest) := by
      rw [receivePayload_eq, receiveLoop_accept_uncorrelated m rest hka]
      simp [herr]
    simp [wait_response, show ¬ timeout ≤ 0 from not_le.mpr ht, hrp]

theorem wait_response_propagates_response_error_witness :
    wait_response (fun _ => true) (fun _ => 1) 3 5 0
        [.msg { id := some "1", type := some "data",
                payload := some (.obj { errors := some ["bad"] }) }]
      = some (.error (.responseError
          { id := some "1", type := some "data",
            payload := some (.obj { errors := some ["bad"] }) }), [])
    ∧ wait_response (fun _ => true) (fun _ => 1) 3 5 0
        [.msg { type := some "next",
                payload := some (.obj { errors := some ["bad2"] }) }]
      = some (.error (.responseError
          { type := some "next",
            payload := some (.obj { errors := some ["bad2"] }) }), []) :=
  have T := wait_response_propagates_response_error (fun _ => true) (fun _ => 1) 2 5 0
  ⟨T.2 { id := some "1", type := some "data",
         payload := some (.obj { errors := some ["bad"] }) } []
     (by decide) (by decide) (by decide),
   T.1 (.responseError { type := some "next",
                         payload := some (.obj { errors := some ["bad2"] }) })
     [.msg { type := some "next", payload := some (.obj { errors := some ["bad2"] }) }]
     [] (by decide) (by decide) (by decide)⟩
